import Mathlib

/-!
# Verification of the encos_sdk motor-control SDK

A shallow embedding of the SDK's protocol layer (`protocol_layer.py`,
`data_types.py`) and motor API layer (`motor_api.py`) in Lean 4, together
with theorems settling the frozen specification claims.

Modelling conventions:
* Python `int` is `ℤ` (or `ℕ` where the source value is provably
  non-negative), Python `bytes` is `List ℕ` with elements below 256.
* Python `float` (IEEE-754 double) arithmetic is modelled by exact `ℚ`
  arithmetic; float literals such as `0.1` denote the exact decimal
  rational.  The literal `math.pi` is kept as the exact rational value of
  the IEEE-754 double that CPython uses, see `mathPi`.
* The 32-bit conversions `struct.pack(">f")` / `struct.unpack(">f")` are
  modelled by an explicit binary32 round-to-nearest-even encoder/decoder
  over `ℚ` (`float32bits`, `bytes_to_float`).
* Wall-clock time (`time.time()`) and the transport result of
  `send_frame` are passed explicitly (`now : ℚ`, `sendOk : Bool`).
-/

namespace Encos

/-- Python `int(x)` applied to a float: truncation toward zero. -/
def pyInt (q : ℚ) : ℤ := if q < 0 then -(⌊-q⌋) else ⌊q⌋

/-- The exact rational value of the IEEE-754 double `math.pi`
(3.141592653589793115997963…), i.e. 884279719003555 / 2^48. -/
def mathPi : ℚ := 884279719003555 / 281474976710656

/-- `math.radians(x)`: degrees to radians, using the double `math.pi`. -/
def radians (deg : ℚ) : ℚ := deg * mathPi / 180

/-- `math.degrees(x)`: radians to degrees, using the double `math.pi`. -/
def degrees (rad : ℚ) : ℚ := rad * 180 / mathPi

/-- Round to the nearest integer, ties to even (IEEE-754 default). -/
def roundTiesEven (q : ℚ) : ℤ :=
  if Int.fract q < 1/2 then ⌊q⌋
  else if 1/2 < Int.fract q then ⌊q⌋ + 1
  else if 2 ∣ ⌊q⌋ then ⌊q⌋ else ⌊q⌋ + 1

/-- Scan downward from exponent `e`: first `e` (within `fuel` steps)
with `2^e ≤ m`. -/
def findExpAux (m : ℚ) : ℕ → ℤ → ℤ
  | 0, e => e
  | fuel + 1, e => if (2:ℚ) ^ e ≤ m then e else findExpAux m fuel (e - 1)

/-- Binary exponent of `m > 0`: the `e` with `2^e ≤ m < 2^(e+1)`
(for `m ≥ 2^128` it returns 128; far-subnormal values fall through to
the subnormal branch of `float32bits`, which ignores it). -/
def findExp (m : ℚ) : ℤ := findExpAux m 300 128

/-- The bit pattern of the IEEE-754 binary32 value nearest to `q`
(round to nearest, ties to even), as produced by `struct.pack(">f")`.
Values at or beyond the overflow threshold map to the infinity pattern. -/
def float32bits (q : ℚ) : ℕ :=
  if q = 0 then 0
  else
    let s : ℕ := if q < 0 then 2 ^ 31 else 0
    let m := |q|
    let e : ℤ := findExp m
    if e < -126 then
      -- subnormal range: units of 2^(-149); a carry into bit 23 is the
      -- smallest normal number, which the same formula encodes
      s + (roundTiesEven (m * 2 ^ (149:ℕ))).toNat
    else if 127 < e then
      s + 0x7F800000
    else
      -- normal range: mantissa in [2^23, 2^24]; a carry to 2^24 bumps
      -- the exponent field (and reaches the infinity pattern at e = 127)
      let mant := (roundTiesEven (m / (2:ℚ) ^ e * 2 ^ (23:ℕ))).toNat
      s + (e + 127).toNat * 2 ^ 23 + (mant - 2 ^ 23)

/-- The four big-endian bytes of a 32-bit word. -/
def bytes4be (n : ℕ) : List ℕ :=
  [n >>> 24 &&& 0xFF, n >>> 16 &&& 0xFF, n >>> 8 &&& 0xFF, n &&& 0xFF]

/-- `float_to_bytes` (data_types.py): `struct.pack(">f", value)`. -/
def float_to_bytes (value : ℚ) : List ℕ := bytes4be (float32bits value)

/-- Big-endian value of a byte string. -/
def beBytesToNat (l : List ℕ) : ℕ := l.foldl (fun acc b => acc * 256 + b) 0

/-- `bytes_to_float` (data_types.py): `struct.unpack(">f", data)[0]`.
IEEE-754 infinities and NaNs (exponent field 255) have no rational
counterpart; this model extends the finite-value formula to them. -/
def bytes_to_float (data : List ℕ) : ℚ :=
  let bits := beBytesToNat data
  let s := bits >>> 31
  let e := (bits >>> 23) &&& 0xFF
  let f := bits &&& 0x7FFFFF
  let mag : ℚ :=
    if e = 0 then (f : ℚ) * (2:ℚ) ^ (-149 : ℤ)
    else ((f : ℚ) + 2 ^ 23) * (2:ℚ) ^ ((e : ℤ) - 150)
  if s = 1 then -mag else mag

/-- `struct.unpack(">h", bytes([hi, lo]))[0]`: signed big-endian 16-bit. -/
def int16be (hi lo : ℕ) : ℤ :=
  let raw := hi * 256 + lo
  if raw < 32768 then (raw : ℤ) else (raw : ℤ) - 65536

/-! ## data_types.py -/

/-- `FeedbackType` enumeration. -/
inductive FeedbackType
  | TYPE_1 | TYPE_2 | TYPE_3 | TYPE_4 | TYPE_5
deriving DecidableEq

/-- The numeric `value` of a `FeedbackType` member. -/
def FeedbackType.value : FeedbackType → ℕ
  | .TYPE_1 => 1 | .TYPE_2 => 2 | .TYPE_3 => 3 | .TYPE_4 => 4 | .TYPE_5 => 5

/-- `ErrorCode` enumeration. -/
inductive ErrorCode
  | NO_ERROR | OVER_VOLTAGE | UNDER_VOLTAGE | OVER_CURRENT
  | OVER_TEMPERATURE | ENCODER_ERROR | HALL_ERROR | UNKNOWN_ERROR
deriving DecidableEq

/-- `MotorStatus` dataclass (defaults as in the source). -/
structure MotorStatus where
  motor_id : ℕ
  position : ℚ := 0
  velocity : ℚ := 0
  current : ℚ := 0
  torque : ℚ := 0
  temperature : ℚ := 0
  error_code : ErrorCode := .NO_ERROR
  voltage : ℚ := 0
  feedback_type : Option FeedbackType := none
deriving DecidableEq

/-- `CANFrame` dataclass.  Its `__post_init__` raises unless
`len(data) ≤ 8`; theorems that rely on this carry it as a hypothesis. -/
structure CANFrame where
  arbitration_id : ℕ
  data : List ℕ
deriving DecidableEq

namespace ProtocolConstants

def HEARTBEAT_TIMEOUT_MS : ℚ := 500
def COMMAND_INTERVAL_MS : ℚ := 500
def POSITION_SCALE : ℚ := 6.28318 / 65536
def VELOCITY_SCALE : ℚ := 0.1
def CURRENT_SCALE : ℚ := 0.01
def TORQUE_SCALE : ℚ := 0.01
def TEMPERATURE_SCALE : ℚ := 0.1
def KP_MAX : ℤ := 4095
def KD_MAX : ℤ := 511

end ProtocolConstants

/-! ## protocol_layer.py: ProtocolEncoder -/

/-- `ProtocolEncoder.encode_query_id`. -/
def encode_query_id : CANFrame :=
  ⟨0x000, [0x55, 0xAA, 0x00, 0x00, 0x00, 0x00, 0x00, 0x00]⟩

/-- `ProtocolEncoder.encode_set_zero_point`. -/
def encode_set_zero_point (motor_id : ℕ) : CANFrame :=
  ⟨motor_id, [0x55, 0xAA, 0x00, 0x00, 0x00, 0x00, 0x00, 0x00]⟩

/-- `ProtocolEncoder.encode_force_position_command`. -/
def encode_force_position_command (motor_id : ℕ)
    (kp kd position velocity torque : ℚ) : CANFrame :=
  let kp_int : ℤ := max 0 (min (pyInt kp) ProtocolConstants.KP_MAX)
  let kd_int : ℤ := max 0 (min (pyInt kd) ProtocolConstants.KD_MAX)
  let pos_normalized := (position + mathPi) / (2 * mathPi)
  let pos_int : ℤ := max 0 (min (pyInt (pos_normalized * 65535)) 65535)
  let vel_normalized := (velocity + 10) / 20
  let vel_int : ℤ := max 0 (min (pyInt (vel_normalized * 2047)) 2047)
  let tor_normalized := (torque + 10) / 20
  let tor_int : ℤ := max 0 (min (pyInt (tor_normalized * 2047)) 2047)
  let command_data : ℕ :=
    ((((0 ||| ((kp_int.toNat &&& 0xFFF) <<< 52))
        ||| ((kd_int.toNat &&& 0x1FF) <<< 43))
        ||| ((pos_int.toNat &&& 0xFFFF) <<< 27))
        ||| ((vel_int.toNat &&& 0x7FF) <<< 16))
        ||| ((tor_int.toNat &&& 0x7FF) <<< 5)
  ⟨motor_id, (List.range 8).map (fun i => (command_data >>> (56 - 8 * i)) &&& 0xFF)⟩

/-- `ProtocolEncoder.encode_servo_position_command`.
`n.to_bytes(2, "big")` of the clamped 16-bit values is
`[n >>> 8, n &&& 0xFF]`. -/
def encode_servo_position_command (motor_id : ℕ)
    (position speed_limit current_limit : ℚ) : CANFrame :=
  let pos_bytes := float_to_bytes (radians position)
  let speed_int : ℤ := max 0 (min (pyInt (speed_limit * 10)) 65535)
  let current_int : ℤ := max 0 (min (pyInt (current_limit * 100)) 65535)
  ⟨motor_id,
    pos_bytes ++
      [speed_int.toNat >>> 8, speed_int.toNat &&& 0xFF,
       current_int.toNat >>> 8, current_int.toNat &&& 0xFF]⟩

/-- `ProtocolEncoder.encode_servo_speed_command`. -/
def encode_servo_speed_command (motor_id : ℕ)
    (speed current_limit : ℚ) : CANFrame :=
  ⟨motor_id, float_to_bytes speed ++ float_to_bytes current_limit⟩

/-- `ProtocolEncoder.encode_status_request`. -/
def encode_status_request (motor_id : ℕ) (feedback_type : FeedbackType) : CANFrame :=
  ⟨motor_id, [0xAA, 0x55, feedback_type.value, 0x00, 0x00, 0x00, 0x00, 0x00]⟩

/-! ## protocol_layer.py: ProtocolDecoder

Byte accesses use `getD _ 0`; every decoder below is only invoked by
`decode_feedback` on payloads of length exactly 8, where all accessed
indices are in range, so the default is never observed. -/

/-- `ProtocolDecoder._decode_type1_feedback`. -/
def _decode_type1_feedback (frame : CANFrame) : MotorStatus :=
  let data := frame.data
  let pos_raw : ℕ := (data.getD 1 0) <<< 8 ||| data.getD 2 0
  let position_rad := (pos_raw : ℚ) * ProtocolConstants.POSITION_SCALE
  let position_deg := degrees position_rad
  let vel_raw := int16be (data.getD 3 0) (data.getD 4 0)
  let velocity_rpm := (vel_raw : ℚ) * ProtocolConstants.VELOCITY_SCALE
  let tor_raw := int16be (data.getD 5 0) (data.getD 6 0)
  let torque_nm := (tor_raw : ℚ) * ProtocolConstants.TORQUE_SCALE
  let temperature := (data.getD 7 0 : ℚ) * ProtocolConstants.TEMPERATURE_SCALE
  { motor_id := frame.arbitration_id, position := position_deg,
    velocity := velocity_rpm, torque := torque_nm,
    temperature := temperature, feedback_type := some .TYPE_1 }

/-- `ProtocolDecoder._decode_type2_feedback`. -/
def _decode_type2_feedback (frame : CANFrame) : MotorStatus :=
  let data := frame.data
  let pos_raw : ℕ := (data.getD 1 0) <<< 8 ||| data.getD 2 0
  let position_rad := (pos_raw : ℚ) * ProtocolConstants.POSITION_SCALE
  let position_deg := degrees position_rad
  let vel_raw := int16be (data.getD 3 0) (data.getD 4 0)
  let velocity_rpm := (vel_raw : ℚ) * ProtocolConstants.VELOCITY_SCALE
  let cur_raw := int16be (data.getD 5 0) (data.getD 6 0)
  let current_a := (cur_raw : ℚ) * ProtocolConstants.CURRENT_SCALE
  let temperature := (data.getD 7 0 : ℚ) * ProtocolConstants.TEMPERATURE_SCALE
  { motor_id := frame.arbitration_id, position := position_deg,
    velocity := velocity_rpm, current := current_a,
    temperature := temperature, feedback_type := some .TYPE_2 }

/-- `ProtocolDecoder._decode_type3_feedback`.  The velocity branch
`data[5:9]` requires 9 bytes, which a `CANFrame` can never hold, so the
`else 0.0` branch is the live one. -/
def _decode_type3_feedback (frame : CANFrame) : MotorStatus :=
  let data := frame.data
  let position_rad := bytes_to_float ((data.drop 1).take 4)
  let position_deg := degrees position_rad
  let velocity_rpm : ℚ :=
    if 9 ≤ data.length then bytes_to_float ((data.drop 5).take 4) else 0
  { motor_id := frame.arbitration_id, position := position_deg,
    velocity := velocity_rpm, feedback_type := some .TYPE_3 }

/-- `ProtocolDecoder._decode_type4_feedback`. -/
def _decode_type4_feedback (frame : CANFrame) : MotorStatus :=
  let data := frame.data
  let temperature := (data.getD 1 0 : ℚ) * ProtocolConstants.TEMPERATURE_SCALE
  let voltage_raw : ℕ := (data.getD 2 0) <<< 8 ||| data.getD 3 0
  let voltage := (voltage_raw : ℚ) * 0.1
  { motor_id := frame.arbitration_id, temperature := temperature,
    voltage := voltage, feedback_type := some .TYPE_4 }

/-- `ProtocolDecoder._decode_type5_feedback`: the Python `if/elif`
chain over the error bits, in source order. -/
def _decode_type5_feedback (frame : CANFrame) : MotorStatus :=
  let error_code_raw := frame.data.getD 1 0
  let error_code : ErrorCode :=
    if error_code_raw &&& 0x01 ≠ 0 then .OVER_VOLTAGE
    else if error_code_raw &&& 0x02 ≠ 0 then .UNDER_VOLTAGE
    else if error_code_raw &&& 0x04 ≠ 0 then .OVER_CURRENT
    else if error_code_raw &&& 0x08 ≠ 0 then .OVER_TEMPERATURE
    else if error_code_raw &&& 0x10 ≠ 0 then .ENCODER_ERROR
    else if error_code_raw &&& 0x20 ≠ 0 then .HALL_ERROR
    else if error_code_raw ≠ 0 then .UNKNOWN_ERROR
    else .NO_ERROR
  { motor_id := frame.arbitration_id, error_code := error_code,
    feedback_type := some .TYPE_5 }

/-- `ProtocolDecoder.decode_feedback`.  The Python body wraps the
dispatch in `try/except Exception: return None`; every operation in the
branches is total on 8-byte payloads, so the embedding is a total
function into `Option`. -/
def decode_feedback (frame : CANFrame) : Option MotorStatus :=
  if frame.data.length < 8 then none
  else
    let feedback_type_code := (frame.data.getD 0 0 >>> 5) &&& 0x07
    if feedback_type_code = 1 then some (_decode_type1_feedback frame)
    else if feedback_type_code = 2 then some (_decode_type2_feedback frame)
    else if feedback_type_code = 3 then some (_decode_type3_feedback frame)
    else if feedback_type_code = 4 then some (_decode_type4_feedback frame)
    else if feedback_type_code = 5 then some (_decode_type5_feedback frame)
    else none

/-- `ProtocolDecoder.decode_id_query_response`. -/
def decode_id_query_response (frame : CANFrame) : Option (List ℕ) :=
  if frame.arbitration_id ≠ 0x000 then none
  else
    let motor_ids := frame.data.filter (fun b => decide (1 ≤ b ∧ b ≤ 32))
    if motor_ids = [] then none else some motor_ids

/-! ## motor_api.py: Motor

A `Motor` instance's mutable fields relevant to the claims are its last
command timestamp and safety limits (field defaults as in `__init__`).
`time.time()` is passed explicitly as `now`, and the boolean result of
`can_hardware.send_frame` as `sendOk`.  Command methods return
`(result, frame handed to send_frame if any, updated state)`. -/

/-- The state of a `Motor` instance (defaults from `Motor.__init__`). -/
structure MotorState where
  motor_id : ℕ
  last_command_time : ℚ := 0
  max_position_deg : ℚ := 360
  max_velocity_rpm : ℚ := 1000
  max_current_a : ℚ := 10
  max_torque_nm : ℚ := 5
deriving DecidableEq

/-- The `mode` string argument of `set_position`: `"servo"`, `"force"`,
or any other string (which raises `ValueError`, caught by the handler). -/
inductive ControlMode
  | servo | force | invalid
deriving DecidableEq

/-- `Motor._check_position_safe`. -/
def _check_position_safe (m : MotorState) (position_deg : ℚ) : Bool :=
  if |position_deg| > m.max_position_deg then false else true

/-- `Motor._check_velocity_safe`. -/
def _check_velocity_safe (m : MotorState) (velocity_rpm : ℚ) : Bool :=
  if |velocity_rpm| > m.max_velocity_rpm then false else true

/-- `Motor._check_current_safe`: note the one-sided comparison, no
absolute value is taken. -/
def _check_current_safe (m : MotorState) (current_a : ℚ) : Bool :=
  if current_a > m.max_current_a then false else true

/-- `Motor.set_position`.  On a safety violation it returns before any
frame is built (`none` in the middle component); on an unsupported mode
the raised `ValueError` is caught and no frame is sent; only a
successful send updates `last_command_time`. -/
def set_position (m : MotorState) (now : ℚ) (sendOk : Bool)
    (position_deg speed_limit_rpm current_limit_a : ℚ)
    (mode : ControlMode) : Bool × Option CANFrame × MotorState :=
  if !(_check_position_safe m position_deg) then (false, none, m)
  else if !(_check_velocity_safe m speed_limit_rpm) then (false, none, m)
  else if !(_check_current_safe m current_limit_a) then (false, none, m)
  else
    match mode with
    | .servo =>
      let frame := encode_servo_position_command m.motor_id position_deg
        speed_limit_rpm current_limit_a
      if sendOk then (true, some frame, { m with last_command_time := now })
      else (false, some frame, m)
    | .force =>
      let frame := encode_force_position_command m.motor_id 50 5
        (position_deg * 3.14159 / 180) 0 0
      if sendOk then (true, some frame, { m with last_command_time := now })
      else (false, some frame, m)
    | .invalid => (false, none, m)

/-- `Motor.set_velocity`. -/
def set_velocity (m : MotorState) (now : ℚ) (sendOk : Bool)
    (velocity_rpm current_limit_a : ℚ) : Bool × Option CANFrame × MotorState :=
  if !(_check_velocity_safe m velocity_rpm) then (false, none, m)
  else if !(_check_current_safe m current_limit_a) then (false, none, m)
  else
    let frame := encode_servo_speed_command m.motor_id velocity_rpm current_limit_a
    if sendOk then (true, some frame, { m with last_command_time := now })
    else (false, some frame, m)

/-- `Motor.set_zero_point`: sends the zero-point frame and returns the
transport result.  It does not touch `last_command_time`. -/
def set_zero_point (m : MotorState) (sendOk : Bool) :
    Bool × Option CANFrame × MotorState :=
  let frame := encode_set_zero_point m.motor_id
  (sendOk, some frame, m)

/-- `Motor.is_heartbeat_alive`. -/
def is_heartbeat_alive (m : MotorState) (now : ℚ) : Bool :=
  if m.last_command_time = 0 then true
  else
    decide (now - m.last_command_time <
      ProtocolConstants.HEARTBEAT_TIMEOUT_MS / 1000)

/-! ## motor_api.py: MotorManager -/

/-- A constructed `Motor` object as the manager sees it; `token` models
Python object identity (two objects built by distinct `Motor(...)` calls
carry distinct tokens). -/
structure PyMotor where
  motor_id : ℕ
  token : ℕ
deriving DecidableEq

/-- `MotorManager` state: the `motors` dict (insertion-ordered
association list) plus the identity counter for new objects. -/
structure ManagerState where
  motors : List (ℕ × PyMotor) := []
  fresh : ℕ := 0
deriving DecidableEq

/-- `MotorManager.add_motor`: return the registered instance when the
id is present, otherwise construct and register a new one.
`Motor.__init__` raises `ValueError` outside 1..32 (`none` here). -/
def add_motor (g : ManagerState) (motor_id : ℕ) :
    Option (PyMotor × ManagerState) :=
  match g.motors.lookup motor_id with
  | some motor => some (motor, g)
  | none =>
    if 1 ≤ motor_id ∧ motor_id ≤ 32 then
      let motor : PyMotor := ⟨motor_id, g.fresh⟩
      some (motor, ⟨g.motors ++ [(motor_id, motor)], g.fresh + 1⟩)
    else none

/-- `MotorManager.scan_motors`: send the id query (result `sendOk`),
collect the decoded responses into a Python `set`, return
`sorted(list(detected_ids))`. -/
def scan_motors (sendOk : Bool) (responses : List CANFrame) : List ℕ :=
  if !sendOk then []
  else
    let detected_ids : Finset ℕ := responses.foldl
      (fun acc f =>
        match decode_id_query_response f with
        | some ids => acc ∪ ids.toFinset
        | none => acc) ∅
    detected_ids.sort (· ≤ ·)

/-! ## Spec-side definitions

Each definition below follows the wording of the specification (not the
source), for comparison against the embedded code. -/

/-- Spec: map the error byte to the kind of its first matching bit in
the fixed priority order OverVoltage(0x01) > UnderVoltage(0x02) >
OverCurrent(0x04) > OverTemperature(0x08) > EncoderFault(0x10) >
HallFault(0x20); if no listed bit is set but the byte is nonzero, the
kind is Unknown; byte 0 is None. -/
def specErrorKind (b : ℕ) : ErrorCode :=
  if b &&& 0x01 ≠ 0 then .OVER_VOLTAGE
  else if b &&& 0x02 ≠ 0 then .UNDER_VOLTAGE
  else if b &&& 0x04 ≠ 0 then .OVER_CURRENT
  else if b &&& 0x08 ≠ 0 then .OVER_TEMPERATURE
  else if b &&& 0x10 ≠ 0 then .ENCODER_ERROR
  else if b &&& 0x20 ≠ 0 then .HALL_ERROR
  else if b ≠ 0 then .UNKNOWN_ERROR
  else .NO_ERROR

/-- The concrete unit of the claim: `maxPositionDeg = 90`, other limits
at the `Motor.__init__` defaults. -/
def motor90 : MotorState := { motor_id := 1, max_position_deg := 90 }

/-- The type-1 position field in degrees as the code computes it: raw
count times the code's position LSB of 6.28318/65536 rad (the spec
claims 2π/65536 here, which the counterexample below refutes),
converted to degrees. -/
def specType1PositionDeg (raw : ℕ) : ℚ := degrees ((raw : ℚ) * (6.28318 / 65536))

/-- Spec: the signed 16-bit big-endian value of two bytes. -/
def specSigned16 (hi lo : ℕ) : ℤ :=
  if hi * 256 + lo < 32768 then (hi * 256 + lo : ℤ)
  else (hi * 256 + lo : ℤ) - 65536

/-- Follows the spec's words for `servoPosition`: bytes 0–3 the IEEE-754
single-precision big-endian encoding of the position in radians, bytes
4–5 the big-endian unsigned 16-bit of round(speedLimitRpm×10) clamped
to [0, 65535], bytes 6–7 likewise with round(currentLimitA×100). -/
def encode_servo_position_spec (motor_id : ℕ)
    (position speed_limit current_limit : ℚ) : CANFrame :=
  let pos_bytes := float_to_bytes (radians position)
  let speed_int : ℤ := max 0 (min (round (speed_limit * 10)) 65535)
  let current_int : ℤ := max 0 (min (round (current_limit * 100)) 65535)
  ⟨motor_id,
    pos_bytes ++
      [speed_int.toNat >>> 8, speed_int.toNat &&& 0xFF,
       current_int.toNat >>> 8, current_int.toNat &&& 0xFF]⟩

/-- Spec: kp clamped to [0, 4095]. -/
def specKpField (kp : ℚ) : ℕ := (max 0 (min (pyInt kp) 4095)).toNat

/-- Spec: kd clamped to [0, 511]. -/
def specKdField (kd : ℚ) : ℕ := (max 0 (min (pyInt kd) 511)).toNat

/-- Spec: position affine-mapped from [−π, π] to [0, 65535] (π being
the double `math.pi`). -/
def specPosField (p : ℚ) : ℕ :=
  (max 0 (min (pyInt ((p + mathPi) / (2 * mathPi) * 65535)) 65535)).toNat

/-- Spec: velocity affine-mapped from [−10, 10] to [0, 2047]. -/
def specVelField (v : ℚ) : ℕ :=
  (max 0 (min (pyInt ((v + 10) / 20 * 2047)) 2047)).toNat

/-- Spec: torque affine-mapped from [−10, 10] to [0, 2047]. -/
def specTorField (t : ℚ) : ℕ :=
  (max 0 (min (pyInt ((t + 10) / 20 * 2047)) 2047)).toNat

/-! ## Helper lemmas -/

/-- A Boolean characterization of `_check_position_safe`. -/
theorem check_position_safe_true {m : MotorState} {p : ℚ} :
    _check_position_safe m p = true ↔ ¬(|p| > m.max_position_deg) := by
  unfold _check_position_safe; split <;> simp_all

/-- A Boolean characterization of `_check_velocity_safe`. -/
theorem check_velocity_safe_true {m : MotorState} {v : ℚ} :
    _check_velocity_safe m v = true ↔ ¬(|v| > m.max_velocity_rpm) := by
  unfold _check_velocity_safe; split <;> simp_all

/-- A Boolean characterization of `_check_current_safe`. -/
theorem check_current_safe_true {m : MotorState} {c : ℚ} :
    _check_current_safe m c = true ↔ ¬(c > m.max_current_a) := by
  unfold _check_current_safe; split <;> simp_all

/-! ## Claim C5 -/

/-- **C5**: for every 8-byte frame whose kind bits decode to 5,
`decode_feedback` reports the error kind of the first matching bit of
byte 1 in the fixed priority order (`specErrorKind`); in particular
byte 0x05 decodes to OverVoltage only and byte 0 to None. -/
theorem C5_type5_error_priority :
    (∀ frame : CANFrame, frame.data.length = 8 →
      (frame.data.getD 0 0 >>> 5) &&& 0x07 = 5 →
      decode_feedback frame = some
        { motor_id := frame.arbitration_id,
          error_code := specErrorKind (frame.data.getD 1 0),
          feedback_type := some .TYPE_5 })
    ∧ specErrorKind 0x05 = .OVER_VOLTAGE ∧ specErrorKind 0 = .NO_ERROR := by
  refine ⟨?_, by decide, by decide⟩
  intro frame h8 hk
  simp only [List.getD_eq_getElem?_getD] at hk
  unfold decode_feedback
  rw [h8]
  norm_num [hk]
  simp [_decode_type5_feedback, specErrorKind]

/-- Witness for C5 at a concrete kind-5 frame with error byte 0x05. -/
theorem C5_witness :
    decode_feedback ⟨2, [0xA0, 0x05, 0, 0, 0, 0, 0, 0]⟩ = some
      { motor_id := 2, error_code := .OVER_VOLTAGE,
        feedback_type := some .TYPE_5 } := by
  have h := C5_type5_error_priority.1 ⟨2, [0xA0, 0x05, 0, 0, 0, 0, 0, 0]⟩
    (by decide) (by decide)
  simpa using h

/-! ## Claim C6 -/

/-- **C6**: `decode_feedback` returns `none` (never an exception — the
embedding is a total function, modelling the catch-all handler) when
the payload length is not exactly 8, and when the dispatch key (top 3
bits of byte 0) lies outside {1..5}.  The hypothesis `length ≤ 8` is
the `CANFrame` constructor invariant. -/
theorem C6_decode_rejects (frame : CANFrame) (hlen : frame.data.length ≤ 8) :
    (frame.data.length ≠ 8 → decode_feedback frame = none)
    ∧ (¬(1 ≤ (frame.data.getD 0 0 >>> 5) &&& 0x07
          ∧ (frame.data.getD 0 0 >>> 5) &&& 0x07 ≤ 5) →
        decode_feedback frame = none) := by
  constructor
  · intro hne
    unfold decode_feedback
    have h : frame.data.length < 8 := by omega
    simp [h]
  · intro hk
    simp only [List.getD_eq_getElem?_getD] at hk
    unfold decode_feedback
    split
    · rfl
    · have h1 : (frame.data[0]?.getD 0 >>> 5) &&& 0x07 ≠ 1 := by omega
      have h2 : (frame.data[0]?.getD 0 >>> 5) &&& 0x07 ≠ 2 := by omega
      have h3 : (frame.data[0]?.getD 0 >>> 5) &&& 0x07 ≠ 3 := by omega
      have h4 : (frame.data[0]?.getD 0 >>> 5) &&& 0x07 ≠ 4 := by omega
      have h5 : (frame.data[0]?.getD 0 >>> 5) &&& 0x07 ≠ 5 := by omega
      simp [h1, h2, h3, h4, h5]

/-- Witness for C6: a 2-byte frame is rejected, and an 8-byte frame
with dispatch key 6 is rejected. -/
theorem C6_witness :
    decode_feedback ⟨1, [0x20, 0]⟩ = none
    ∧ decode_feedback ⟨1, [0xC0, 0, 0, 0, 0, 0, 0, 0]⟩ = none :=
  ⟨(C6_decode_rejects ⟨1, [0x20, 0]⟩ (by decide)).1 (by decide),
   (C6_decode_rejects ⟨1, [0xC0, 0, 0, 0, 0, 0, 0, 0]⟩ (by decide)).2 (by decide)⟩

/-! ## Claim C7 -/

/-- **C7 counterexample**: the claim "isHeartbeatAlive() is true
immediately after any successful command" fails for `set_zero_point`,
which does not refresh `last_command_time`: a motor whose last
timestamped command was at t = 1 runs `set_zero_point` successfully at
t = 10, yet the heartbeat reads false immediately afterwards. -/
theorem C7_counterexample :
    (set_zero_point { motor_id := 1, last_command_time := 1 } true).1 = true
    ∧ is_heartbeat_alive
        (set_zero_point { motor_id := 1, last_command_time := 1 } true).2.2 10
      = false := by
  constructor
  · rfl
  · simp only [set_zero_point, is_heartbeat_alive,
      ProtocolConstants.HEARTBEAT_TIMEOUT_MS]
    norm_num

/-- Shared helper: a command that returns true has set the last-command
timestamp to the current time (`set_position`). -/
theorem set_position_true_timestamp (m : MotorState) (now : ℚ) (sendOk : Bool)
    (p s c : ℚ) (mode : ControlMode)
    (h : (set_position m now sendOk p s c mode).1 = true) :
    (set_position m now sendOk p s c mode).2.2.last_command_time = now := by
  cases mode <;> (unfold set_position at h ⊢; split_ifs at h ⊢ <;> simp_all)

/-- Shared helper: a command that returns true has set the last-command
timestamp to the current time (`set_velocity`). -/
theorem set_velocity_true_timestamp (m : MotorState) (now : ℚ) (sendOk : Bool)
    (v c : ℚ) (h : (set_velocity m now sendOk v c).1 = true) :
    (set_velocity m now sendOk v c).2.2.last_command_time = now := by
  unfold set_velocity at h ⊢
  split_ifs at h ⊢
  all_goals simp_all

/-- Shared helper: the heartbeat reads alive at the instant of the last
refreshing command. -/
theorem heartbeat_alive_at_refresh (m : MotorState) (now : ℚ)
    (h : m.last_command_time = now) : is_heartbeat_alive m now = true := by
  unfold is_heartbeat_alive
  rw [h]
  split
  · rfl
  · simp only [ProtocolConstants.HEARTBEAT_TIMEOUT_MS, decide_eq_true_eq]
    norm_num

/-- **C7 (amended)**: `is_heartbeat_alive` is true when no command has
ever been sent (timestamp still 0); it is true immediately after any
successful `set_position` or `set_velocity` (the commands that refresh
the timestamp — `set_zero_point` does not); and it is false once more
than 500 ms have elapsed since the last refreshing command. -/
theorem C7_heartbeat :
    (∀ (m : MotorState) (now : ℚ), m.last_command_time = 0 →
      is_heartbeat_alive m now = true)
    ∧ (∀ (m : MotorState) (now : ℚ) (sendOk : Bool) (p s c : ℚ)
        (mode : ControlMode),
        (set_position m now sendOk p s c mode).1 = true →
        is_heartbeat_alive (set_position m now sendOk p s c mode).2.2 now = true)
    ∧ (∀ (m : MotorState) (now : ℚ) (sendOk : Bool) (v c : ℚ),
        (set_velocity m now sendOk v c).1 = true →
        is_heartbeat_alive (set_velocity m now sendOk v c).2.2 now = true)
    ∧ (∀ (m : MotorState) (now : ℚ), m.last_command_time ≠ 0 →
        now - m.last_command_time > 500 / 1000 →
        is_heartbeat_alive m now = false) := by
  refine ⟨?_, ?_, ?_, ?_⟩
  · intro m now h
    unfold is_heartbeat_alive
    simp [h]
  · intro m now sendOk p s c mode h
    exact heartbeat_alive_at_refresh _ now
      (set_position_true_timestamp m now sendOk p s c mode h)
  · intro m now sendOk v c h
    exact heartbeat_alive_at_refresh _ now
      (set_velocity_true_timestamp m now sendOk v c h)
  · intro m now h hgt
    unfold is_heartbeat_alive
    rw [if_neg h]
    simp only [ProtocolConstants.HEARTBEAT_TIMEOUT_MS, decide_eq_false_iff_not]
    intro hlt
    norm_num at hlt hgt
    linarith

/-- Witness for C7 at a concrete stale motor state. -/
theorem C7_witness :
    is_heartbeat_alive { motor_id := 1, last_command_time := 1 } 2 = false :=
  C7_heartbeat.2.2.2 { motor_id := 1, last_command_time := 1 } 2
    (by norm_num) (by norm_num)

/-! ## Claim C2 -/

/-- Shared helper: any safety violation makes `set_position` fail
closed, with no frame handed to the transport and the state unchanged. -/
theorem set_position_fails_closed (m : MotorState) (now : ℚ) (sendOk : Bool)
    (p s c : ℚ) (mode : ControlMode)
    (h : |p| > m.max_position_deg ∨ |s| > m.max_velocity_rpm
      ∨ c > m.max_current_a) :
    set_position m now sendOk p s c mode = (false, none, m) := by
  cases hc1 : _check_position_safe m p with
  | false => simp [set_position, hc1]
  | true =>
    cases hc2 : _check_velocity_safe m s with
    | false => simp [set_position, hc1, hc2]
    | true =>
      cases hc3 : _check_current_safe m c with
      | false => simp [set_position, hc1, hc2, hc3]
      | true =>
        exfalso
        rw [check_position_safe_true] at hc1
        rw [check_velocity_safe_true] at hc2
        rw [check_current_safe_true] at hc3
        tauto

/-- **C2**: `set_position` validates `|deg| ≤ maxPositionDeg`,
`|speedLimitRpm| ≤ maxVelocityRpm`, `currentLimitA ≤ maxCurrentA` and
fails closed (false, no frame sent, state unchanged) on any violation;
with `maxPositionDeg = 90`, `set_position 180 …` fails with no frame
and `set_position 45 …` (in-range limits, successful send) returns
true. -/
theorem C2_set_position_safety :
    (∀ (m : MotorState) (now : ℚ) (sendOk : Bool) (p s c : ℚ)
        (mode : ControlMode),
        |p| > m.max_position_deg ∨ |s| > m.max_velocity_rpm
          ∨ c > m.max_current_a →
        set_position m now sendOk p s c mode = (false, none, m))
    ∧ (∀ now : ℚ,
        set_position motor90 now true 180 100 5 .servo = (false, none, motor90))
    ∧ (∀ now : ℚ,
        (set_position motor90 now true 45 100 5 .servo).1 = true) := by
  refine ⟨set_position_fails_closed, ?_, ?_⟩
  · intro now
    exact set_position_fails_closed motor90 now true 180 100 5 .servo
      (Or.inl (by norm_num [motor90]))
  · intro now
    have h1 : _check_position_safe motor90 45 = true := by
      rw [check_position_safe_true]; norm_num [motor90]
    have h2 : _check_velocity_safe motor90 100 = true := by
      rw [check_velocity_safe_true]; norm_num [motor90]
    have h3 : _check_current_safe motor90 5 = true := by
      rw [check_current_safe_true]; norm_num [motor90]
    simp [set_position, h1, h2, h3]

/-- Witness for C2: the out-of-range call at 180° fails closed. -/
theorem C2_witness :
    set_position motor90 0 true 180 100 5 .servo = (false, none, motor90) :=
  C2_set_position_safety.1 motor90 0 true 180 100 5 .servo
    (Or.inl (by norm_num [motor90]))

/-! ## Claim C10 -/

/-- **C10**: the current safety check is one-sided — every
`current_limit_a ≤ maxCurrentA`, including arbitrarily negative values,
passes — and `set_velocity` with such a current limit proceeds to
encode and send the frame whenever the velocity check passes and the
transport send succeeds. -/
theorem C10_current_check_one_sided :
    (∀ (m : MotorState) (c : ℚ), c ≤ m.max_current_a →
      _check_current_safe m c = true)
    ∧ (∀ (m : MotorState) (now v c : ℚ), |v| ≤ m.max_velocity_rpm →
        c ≤ m.max_current_a →
        set_velocity m now true v c =
          (true, some (encode_servo_speed_command m.motor_id v c),
           { m with last_command_time := now })) := by
  have hcur : ∀ (m : MotorState) (c : ℚ), c ≤ m.max_current_a →
      _check_current_safe m c = true := by
    intro m c h
    rw [check_current_safe_true]
    exact not_lt.mpr h
  refine ⟨hcur, ?_⟩
  intro m now v c hv hc
  have h1 : _check_velocity_safe m v = true := by
    rw [check_velocity_safe_true]
    exact not_lt.mpr hv
  simp [set_velocity, h1, hcur m c hc]

/-- Witness for C10: the default unit accepts `set_velocity` with a
current limit of −1000 A. -/
theorem C10_witness :
    set_velocity { motor_id := 1 } 0 true 0 (-1000) =
      (true, some (encode_servo_speed_command 1 0 (-1000)),
       { motor_id := 1, last_command_time := 0 }) :=
  C10_current_check_one_sided.2 { motor_id := 1 } 0 0 (-1000)
    (by norm_num) (by norm_num)

/-! ## Claim C8 -/

/-- Shared helper: appending a fresh key to an association list makes
it found by `lookup`. -/
theorem lookup_append_singleton {β : Type} (l : List (ℕ × β)) (k : ℕ) (m : β)
    (h : l.lookup k = none) : (l ++ [(k, m)]).lookup k = some m := by
  induction l with
  | nil => simp [List.lookup]
  | cons p t ih =>
    obtain ⟨a, b⟩ := p
    rw [List.cons_append]
    rw [List.lookup_cons] at h ⊢
    cases hk : (k == a) with
    | true =>
      rw [hk] at h
      simp at h
    | false =>
      rw [hk] at h
      exact ih h

/-- **C8**: `add_motor` is idempotent — a second call with the same
address returns the same `Motor` instance (same identity token) and
leaves the registry unchanged — and `scan_motors` always returns a
sorted, duplicate-free address list. -/
theorem C8_idempotent_and_scan_sorted :
    (∀ (g : ManagerState) (motor_id : ℕ) (m1 : PyMotor) (g1 : ManagerState),
        add_motor g motor_id = some (m1, g1) →
        add_motor g1 motor_id = some (m1, g1))
    ∧ (∀ (sendOk : Bool) (responses : List CANFrame),
        (scan_motors sendOk responses).Sorted (· ≤ ·)
        ∧ (scan_motors sendOk responses).Nodup) := by
  constructor
  · intro g motor_id m1 g1 h
    unfold add_motor at h
    cases hl : g.motors.lookup motor_id with
    | some m =>
      rw [hl] at h
      obtain ⟨rfl, rfl⟩ : m = m1 ∧ g = g1 := by simpa using h
      unfold add_motor
      rw [hl]
    | none =>
      rw [hl] at h
      split_ifs at h with hid
      obtain ⟨rfl, rfl⟩ : (⟨motor_id, g.fresh⟩ : PyMotor) = m1
          ∧ (⟨g.motors ++ [(motor_id, ⟨motor_id, g.fresh⟩)], g.fresh + 1⟩ :
              ManagerState) = g1 := by simpa using h
      simp only [add_motor]
      rw [lookup_append_singleton g.motors motor_id _ hl]
  · intro sendOk responses
    unfold scan_motors
    split
    · simp
    · exact ⟨Finset.sort_sorted _ _, Finset.sort_nodup _ _⟩

/-- Witness for C8: adding motor 3 twice to an empty manager. -/
theorem C8_witness :
    add_motor ⟨[(3, ⟨3, 0⟩)], 1⟩ 3 = some (⟨3, 0⟩, ⟨[(3, ⟨3, 0⟩)], 1⟩) :=
  C8_idempotent_and_scan_sorted.1 ⟨[], 0⟩ 3 ⟨3, 0⟩ ⟨[(3, ⟨3, 0⟩)], 1⟩ (by decide)

/-! ## Claim C9 -/

/-- Shared helper: `decode_id_query_response` with its `let` expanded. -/
theorem decode_id_query_response_eq (frame : CANFrame) :
    decode_id_query_response frame =
      if frame.arbitration_id ≠ 0 then none
      else if frame.data.filter (fun b => decide (1 ≤ b ∧ b ≤ 32)) = [] then none
      else some (frame.data.filter (fun b => decide (1 ≤ b ∧ b ≤ 32))) := rfl

/-- **C9**: `decode_id_query_response` returns `none` unless the frame
address is 0x000; otherwise it returns exactly the payload bytes lying
in [1, 32] (as the discovered addresses), and `none` when no payload
byte lies in that range. -/
theorem C9_id_query_response (frame : CANFrame) :
    (frame.arbitration_id ≠ 0 → decode_id_query_response frame = none)
    ∧ (decode_id_query_response frame = none ↔
        frame.arbitration_id ≠ 0 ∨ ∀ b ∈ frame.data, ¬(1 ≤ b ∧ b ≤ 32))
    ∧ (∀ l, decode_id_query_response frame = some l →
        ∀ b, b ∈ l ↔ b ∈ frame.data ∧ 1 ≤ b ∧ b ≤ 32) := by
  have hiff : (frame.data.filter (fun b => decide (1 ≤ b ∧ b ≤ 32)) = [])
      ↔ ∀ b ∈ frame.data, ¬(1 ≤ b ∧ b ≤ 32) := by
    rw [List.filter_eq_nil_iff]
    constructor
    · intro hn b hb
      simpa using hn b hb
    · intro hn b hb
      simpa using hn b hb
  rw [decode_id_query_response_eq]
  refine ⟨?_, ?_, ?_⟩
  · intro h
    rw [if_pos h]
  · by_cases h : frame.arbitration_id ≠ 0
    · simp [h]
    · rw [if_neg h]
      simp only [h, false_or]
      by_cases hnil : frame.data.filter (fun b => decide (1 ≤ b ∧ b ≤ 32)) = []
      · rw [if_pos hnil]
        simpa using hiff.mp hnil
      · rw [if_neg hnil]
        simp only [reduceCtorEq, false_iff]
        intro hall
        exact hnil (hiff.mpr hall)
  · intro l hl b
    split_ifs at hl with h1 h2
    have hX : frame.data.filter (fun b => decide (1 ≤ b ∧ b ≤ 32)) = l :=
      Option.some.inj hl
    subst hX
    simp [List.mem_filter]

/-- Witness for C9: a frame with a nonzero address yields `none`. -/
theorem C9_witness : decode_id_query_response ⟨5, [3]⟩ = none :=
  (C9_id_query_response ⟨5, [3]⟩).1 (by decide)

/-! ## Claim C3 -/

/-- **C3 counterexample**: the claim prices the position LSB at
2π/65536 rad, so the frame with raw position count 0x8000 = 32768 would
decode to exactly π rad = 180°; the code's constant is 6.28318/65536
(with 6.28318 ≠ 2π), and the decoded position is ≈ 179.99985°, not
180°. -/
theorem C3_counterexample :
    (decode_feedback ⟨1, [0x20, 0x80, 0, 0, 0, 0, 0, 0]⟩).map
        MotorStatus.position ≠ some 180 := by
  have hd : decode_feedback ⟨1, [0x20, 0x80, 0, 0, 0, 0, 0, 0]⟩
      = some (_decode_type1_feedback ⟨1, [0x20, 0x80, 0, 0, 0, 0, 0, 0]⟩) := rfl
  rw [hd, Option.map_some']
  unfold _decode_type1_feedback
  simp only [ne_eq, Option.some.injEq]
  norm_num [Nat.shiftLeft_eq, degrees, ProtocolConstants.POSITION_SCALE, mathPi]

/-- **C3 (amended)**: for every 8-byte frame of kind 1,
`decode_feedback` returns position = (unsigned 16-bit big-endian of
bytes 1–2) × 6.28318/65536 rad converted to degrees (not 2π/65536),
velocity = (signed 16-bit big-endian of bytes 3–4) × 0.1 RPM, torque =
(signed 16-bit big-endian of bytes 5–6) × 0.01 N·m, and temperature =
byte 7 × 0.1 °C. -/
theorem C3_type1_decode (frame : CANFrame) (h8 : frame.data.length = 8)
    (hb : ∀ b ∈ frame.data, b < 256)
    (hk : (frame.data.getD 0 0 >>> 5) &&& 0x07 = 1) :
    decode_feedback frame = some
      { motor_id := frame.arbitration_id,
        position := specType1PositionDeg
          (frame.data.getD 1 0 * 256 + frame.data.getD 2 0),
        velocity := (specSigned16 (frame.data.getD 3 0) (frame.data.getD 4 0) : ℚ)
          * (1 / 10),
        torque := (specSigned16 (frame.data.getD 5 0) (frame.data.getD 6 0) : ℚ)
          * (1 / 100),
        temperature := (frame.data.getD 7 0 : ℚ) * (1 / 10),
        feedback_type := some .TYPE_1 } := by
  have hmem : ∀ i, i < frame.data.length → frame.data[i]?.getD 0 < 256 := by
    intro i hi
    rw [List.getElem?_eq_getElem hi]
    exact hb _ (frame.data.getElem_mem hi)
  have hb2 : frame.data[2]?.getD 0 < 2 ^ 8 := by
    have := hmem 2 (by omega)
    omega
  have hor : frame.data[1]?.getD 0 <<< 8 ||| frame.data[2]?.getD 0
      = frame.data[1]?.getD 0 * 256 + frame.data[2]?.getD 0 := by
    rw [Nat.shiftLeft_eq, Nat.mul_comm]
    exact (Nat.mul_add_lt_is_or hb2 _).symm
  simp only [List.getD_eq_getElem?_getD] at hk ⊢
  unfold decode_feedback
  rw [h8]
  norm_num [hk]
  unfold _decode_type1_feedback
  simp only [List.getD_eq_getElem?_getD, hor]
  rw [MotorStatus.mk.injEq]
  refine ⟨rfl, ?_, ?_, rfl, ?_, ?_, rfl, rfl, rfl⟩
  · simp [specType1PositionDeg, ProtocolConstants.POSITION_SCALE]
  · simp only [int16be, specSigned16, ProtocolConstants.VELOCITY_SCALE]
    norm_num
  · simp only [int16be, specSigned16, ProtocolConstants.TORQUE_SCALE]
    norm_num
  · simp only [ProtocolConstants.TEMPERATURE_SCALE]
    norm_num

/-- Witness for C3 at a concrete kind-1 frame. -/
theorem C3_witness :
    decode_feedback ⟨7, [0x20, 0, 1, 0, 10, 0, 20, 30]⟩ = some
      { motor_id := 7, position := specType1PositionDeg 1,
        velocity := (specSigned16 0 10 : ℚ) * (1 / 10),
        torque := (specSigned16 0 20 : ℚ) * (1 / 100),
        temperature := (30 : ℚ) * (1 / 10),
        feedback_type := some .TYPE_1 } := by
  have h := C3_type1_decode ⟨7, [0x20, 0, 1, 0, 10, 0, 20, 30]⟩ (by decide)
    (by decide) (by decide)
  simpa using h

/-! ## Claim C4 -/

/-- **C4 counterexample**: the spec says bytes 4–5 hold
round(speedLimitRpm×10); the code truncates with `int(...)`.  At
speedLimitRpm = 0.19, 0.19×10 = 1.9 truncates to 1 but rounds to 2, so
the emitted frames differ (byte 5 is 1 vs 2). -/
theorem C4_counterexample :
    encode_servo_position_command 1 0 (19 / 100) 0
      ≠ encode_servo_position_spec 1 0 (19 / 100) 0 := by
  have h1 : pyInt (19 / 100 * 10) = 1 := by
    unfold pyInt
    rw [if_neg (by norm_num)]
    rw [Int.floor_eq_iff]
    norm_num
  have h2 : round ((19 : ℚ) / 100 * 10) = 2 := by
    rw [round_eq]
    rw [Int.floor_eq_iff]
    norm_num
  have hL : (encode_servo_position_command 1 0 (19 / 100) 0).data.getD 5 0 = 1 := by
    simp [encode_servo_position_command, float_to_bytes, bytes4be, h1]
  have hR : (encode_servo_position_spec 1 0 (19 / 100) 0).data.getD 5 0 = 2 := by
    simp [encode_servo_position_spec, float_to_bytes, bytes4be, h2]
    decide
  intro h
  have hbyte := congrArg (fun f => f.data.getD 5 0) h
  simp only at hbyte
  rw [hL, hR] at hbyte
  exact absurd hbyte (by norm_num)

/-- **C4 (amended)**: the payload is 8 bytes; bytes 0–3 are the IEEE-754
single-precision big-endian encoding of the position converted to
radians; bytes 4–5 are the big-endian unsigned 16-bit of
int(speedLimitRpm×10) — truncation toward zero, not rounding — clamped
to [0, 65535]; bytes 6–7 likewise with int(currentLimitA×100). -/
theorem C4_servo_position_encoding (motor_id : ℕ) (p s c : ℚ) :
    ((encode_servo_position_command motor_id p s c).data.length = 8
    ∧ (encode_servo_position_command motor_id p s c).data.take 4
        = float_to_bytes (radians p))
    ∧ ((((encode_servo_position_command motor_id p s c).data.getD 4 0 : ℤ) * 256
        + ((encode_servo_position_command motor_id p s c).data.getD 5 0 : ℤ)
        = max 0 (min (pyInt (s * 10)) 65535))
    ∧ (((encode_servo_position_command motor_id p s c).data.getD 6 0 : ℤ) * 256
        + ((encode_servo_position_command motor_id p s c).data.getD 7 0 : ℤ)
        = max 0 (min (pyInt (c * 100)) 65535))) := by
  have key : ∀ x : ℤ, (((max 0 (min x 65535)).toNat >>> 8 : ℕ) : ℤ) * 256
      + (((max 0 (min x 65535)).toNat &&& 0xFF : ℕ) : ℤ) = max 0 (min x 65535) := by
    intro x
    rw [Nat.shiftRight_eq_div_pow]
    rw [show (0xFF : ℕ) = 2 ^ 8 - 1 from rfl, Nat.and_pow_two_sub_one_eq_mod]
    omega
  refine ⟨⟨?_, ?_⟩, ?_, ?_⟩
  · simp [encode_servo_position_command, float_to_bytes, bytes4be]
  · simp [encode_servo_position_command, float_to_bytes, bytes4be]
  · have h := key (pyInt (s * 10))
    simpa [encode_servo_position_command, float_to_bytes, bytes4be] using h
  · have h := key (pyInt (c * 100))
    simpa [encode_servo_position_command, float_to_bytes, bytes4be] using h

/-! ## Claim C1 -/

/-- Shared helper: `or` of a multiple of `2^k` with a value below `2^k`
is their sum. -/
theorem lor_eq_add_of_dvd (k x y : ℕ) (hx : 2 ^ k ∣ x) (hy : y < 2 ^ k) :
    x ||| y = x + y := by
  obtain ⟨a, rfl⟩ := hx
  exact (Nat.mul_add_lt_is_or hy a).symm

/-- Shared helper: the force-position bit packing of the five bounded
fields, exactly as the encoder computes it, equals the weighted sum
that places each field at its claimed bit offset. -/
theorem pack_fields (a b p v t : ℕ) (ha : a ≤ 4095) (hb : b ≤ 511)
    (hp : p ≤ 65535) (hv : v ≤ 2047) (ht : t ≤ 2047) :
    ((((0 ||| ((a &&& 0xFFF) <<< 52)) ||| ((b &&& 0x1FF) <<< 43))
      ||| ((p &&& 0xFFFF) <<< 27)) ||| ((v &&& 0x7FF) <<< 16))
      ||| ((t &&& 0x7FF) <<< 5)
    = a * 2 ^ 52 + b * 2 ^ 43 + p * 2 ^ 27 + v * 2 ^ 16 + t * 2 ^ 5 := by
  have ma : a &&& 0xFFF = a := by
    rw [show (0xFFF : ℕ) = 2 ^ 12 - 1 from rfl, Nat.and_pow_two_sub_one_eq_mod]
    omega
  have mb : b &&& 0x1FF = b := by
    rw [show (0x1FF : ℕ) = 2 ^ 9 - 1 from rfl, Nat.and_pow_two_sub_one_eq_mod]
    omega
  have mp : p &&& 0xFFFF = p := by
    rw [show (0xFFFF : ℕ) = 2 ^ 16 - 1 from rfl, Nat.and_pow_two_sub_one_eq_mod]
    omega
  have mv : v &&& 0x7FF = v := by
    rw [show (0x7FF : ℕ) = 2 ^ 11 - 1 from rfl, Nat.and_pow_two_sub_one_eq_mod]
    omega
  have mt : t &&& 0x7FF = t := by
    rw [show (0x7FF : ℕ) = 2 ^ 11 - 1 from rfl, Nat.and_pow_two_sub_one_eq_mod]
    omega
  rw [ma, mb, mp, mv, mt, Nat.zero_or]
  rw [Nat.shiftLeft_eq, Nat.shiftLeft_eq, Nat.shiftLeft_eq, Nat.shiftLeft_eq,
    Nat.shiftLeft_eq]
  rw [lor_eq_add_of_dvd 52 (a * 2 ^ 52) (b * 2 ^ 43) ⟨a, by ring⟩ (by omega)]
  rw [lor_eq_add_of_dvd 43 (a * 2 ^ 52 + b * 2 ^ 43) (p * 2 ^ 27)
    ⟨a * 2 ^ 9 + b, by ring⟩ (by omega)]
  rw [lor_eq_add_of_dvd 27 (a * 2 ^ 52 + b * 2 ^ 43 + p * 2 ^ 27) (v * 2 ^ 16)
    ⟨a * 2 ^ 25 + b * 2 ^ 16 + p, by ring⟩ (by omega)]
  rw [lor_eq_add_of_dvd 16 (a * 2 ^ 52 + b * 2 ^ 43 + p * 2 ^ 27 + v * 2 ^ 16)
    (t * 2 ^ 5) ⟨a * 2 ^ 36 + b * 2 ^ 27 + p * 2 ^ 11 + v, by ring⟩ (by omega)]

/-- Shared helper: re-reading the eight emitted big-endian bytes
recovers any word below `2^64`. -/
theorem bytes_roundtrip (n : ℕ) (hn : n < 2 ^ 64) :
    beBytesToNat ((List.range 8).map (fun i => (n >>> (56 - 8 * i)) &&& 0xFF))
      = n := by
  rw [show List.range 8 = [0, 1, 2, 3, 4, 5, 6, 7] from rfl]
  simp only [List.map_cons, List.map_nil]
  unfold beBytesToNat
  simp only [List.foldl_cons, List.foldl_nil]
  simp only [show (0xFF : ℕ) = 2 ^ 8 - 1 from rfl, Nat.and_pow_two_sub_one_eq_mod,
    Nat.shiftRight_eq_div_pow]
  norm_num
  omega

/-- Shared helper: every emitted byte is below 256. -/
theorem bytes_lt (n : ℕ) :
    ∀ byte ∈ (List.range 8).map (fun i => (n >>> (56 - 8 * i)) &&& 0xFF),
      byte < 256 := by
  intro byte hb
  simp only [List.mem_map] at hb
  obtain ⟨i, _, rfl⟩ := hb
  have h : (n >>> (56 - 8 * i)) &&& 0xFF ≤ 0xFF := Nat.and_le_right
  omega

/-- **C1**: the force-position encoder clamps kp to [0,4095] and kd to
[0,511], affine-maps position from [−π,π] to [0,65535], velocity and
torque from [−10,10] to [0,2047], and packs the five fields
most-significant-first into one 64-bit integer with Kp at bits 63–52,
Kd at 51–43, position at 42–27, velocity at 26–16, torque at 15–5 and
the 5 low bits zero, emitted as 8 bytes most-significant byte first
(so the big-endian value of the payload is the weighted field sum, and
each field is recovered by its claimed bit slice). -/
theorem C1_force_position_encoding (motor_id : ℕ) (kp kd p v t : ℚ) :
    ((encode_force_position_command motor_id kp kd p v t).data.length = 8
      ∧ ∀ byte ∈ (encode_force_position_command motor_id kp kd p v t).data,
          byte < 256)
    ∧ (specKpField kp ≤ 4095 ∧ specKdField kd ≤ 511 ∧ specPosField p ≤ 65535
       ∧ specVelField v ≤ 2047 ∧ specTorField t ≤ 2047)
    ∧ beBytesToNat (encode_force_position_command motor_id kp kd p v t).data
        = specKpField kp * 2 ^ 52 + specKdField kd * 2 ^ 43
          + specPosField p * 2 ^ 27 + specVelField v * 2 ^ 16
          + specTorField t * 2 ^ 5
    ∧ beBytesToNat (encode_force_position_command motor_id kp kd p v t).data >>> 52
        = specKpField kp
    ∧ (beBytesToNat (encode_force_position_command motor_id kp kd p v t).data >>> 43)
        % 2 ^ 9 = specKdField kd
    ∧ (beBytesToNat (encode_force_position_command motor_id kp kd p v t).data >>> 27)
        % 2 ^ 16 = specPosField p
    ∧ (beBytesToNat (encode_force_position_command motor_id kp kd p v t).data >>> 16)
        % 2 ^ 11 = specVelField v
    ∧ (beBytesToNat (encode_force_position_command motor_id kp kd p v t).data >>> 5)
        % 2 ^ 11 = specTorField t
    ∧ beBytesToNat (encode_force_position_command motor_id kp kd p v t).data
        % 2 ^ 5 = 0 := by
  have ha : specKpField kp ≤ 4095 := by unfold specKpField; omega
  have hb : specKdField kd ≤ 511 := by unfold specKdField; omega
  have hp : specPosField p ≤ 65535 := by unfold specPosField; omega
  have hv : specVelField v ≤ 2047 := by unfold specVelField; omega
  have ht : specTorField t ≤ 2047 := by unfold specTorField; omega
  have hdata : (encode_force_position_command motor_id kp kd p v t).data
      = (List.range 8).map (fun i =>
          ((specKpField kp * 2 ^ 52 + specKdField kd * 2 ^ 43
            + specPosField p * 2 ^ 27 + specVelField v * 2 ^ 16
            + specTorField t * 2 ^ 5) >>> (56 - 8 * i)) &&& 0xFF) := by
    unfold specKpField specKdField specPosField specVelField specTorField
    simp only [encode_force_position_command, ProtocolConstants.KP_MAX,
      ProtocolConstants.KD_MAX]
    congr 1
    funext i
    rw [pack_fields _ _ _ _ _ (by omega) (by omega) (by omega) (by omega)
      (by omega)]
  have hlt : specKpField kp * 2 ^ 52 + specKdField kd * 2 ^ 43
      + specPosField p * 2 ^ 27 + specVelField v * 2 ^ 16
      + specTorField t * 2 ^ 5 < 2 ^ 64 := by omega
  have hsum : beBytesToNat (encode_force_position_command motor_id kp kd p v t).data
      = specKpField kp * 2 ^ 52 + specKdField kd * 2 ^ 43
        + specPosField p * 2 ^ 27 + specVelField v * 2 ^ 16
        + specTorField t * 2 ^ 5 := by
    rw [hdata]
    exact bytes_roundtrip _ hlt
  refine ⟨⟨?_, ?_⟩, ⟨ha, hb, hp, hv, ht⟩, hsum, ?_, ?_, ?_, ?_, ?_, ?_⟩
  · rw [hdata]
    simp
  · rw [hdata]
    exact bytes_lt _
  all_goals first
    | (rw [hsum, Nat.shiftRight_eq_div_pow]; omega)
    | (rw [hsum]; omega)

end Encos
